import Mathlib

/-!
Verification of the webhook dispatcher for a Telegram bot running on
Cloudflare Workers.  The definitions below are a shallow embedding of the
TypeScript sources:

* `src/packages/main/src/types/updateTypeMap.ts` — the ordered classifier;
* the `UpdateType` enum;
* `TelegramExecutionContext` (constructor classification and command
  extraction, `reply`, `replyPhoto`, `replyVideo`, `sendTyping`,
  `replyInline`, `getFile`);
* `TelegramBot.handle` (dispatch);
* `TelegramApi` (rate limiter, `post`/`get` helpers, the send operations and
  `getFile`).

JavaScript strings are modelled as Lean `String`; the JS string operations
used by the source (`startsWith`, `slice(1)`, `split(' ')`) are defined on
the underlying character list so that everything reduces in the kernel.
JS truthiness of an optional string (`!!x`, `x && y`, `x || y`) is modelled
explicitly: `undefined` and the empty string are falsy.
-/

/-- The `UpdateType` enum from `types/UpdateType.ts`. -/
inductive UpdateType where
  | Message
  | Photo
  | Inline
  | Document
  | Callback
  | BusinessMessage
deriving DecidableEq, Repr

/-- The parts of a Telegram `message` object the dispatcher inspects.
`photo` and `document` model the truthiness of `message.photo` /
`message.document` (arrays and objects are truthy whenever present). -/
structure Msg where
  text : Option String
  photo : Bool
  document : Bool
deriving DecidableEq, Repr

/-- The parts of a `business_message` object the dispatcher inspects. -/
structure BusinessMsg where
  text : Option String
deriving DecidableEq, Repr

/-- The parts of an `inline_query` object the dispatcher inspects. -/
structure InlineQuery where
  id : String
  query : String
deriving DecidableEq, Repr

/-- The parts of a `callback_query` object the dispatcher inspects. -/
structure CallbackQuery where
  id : String
deriving DecidableEq, Repr

/-- A raw update payload (`TelegramUpdate`): each sub-object is optional. -/
structure TelegramUpdate where
  message : Option Msg
  business_message : Option BusinessMsg
  inline_query : Option InlineQuery
  callback_query : Option CallbackQuery
deriving DecidableEq, Repr

/-- JS truthiness of an optional string: `undefined` and `""` are falsy. -/
def jsTruthyOpt (o : Option String) : Bool :=
  match o with
  | none => false
  | some s => s ≠ ""

/-- JS `a || b` on an optional string `a` and a string `b`:
yields `a` when truthy, otherwise `b`. -/
def jsStrOr (a : Option String) (b : String) : String :=
  match a with
  | none => b
  | some s => if s = "" then b else s

/-- JS `text.startsWith('/')`: the first character is `'/'`. -/
def startsWithSlash (s : String) : Bool :=
  match s.data with
  | [] => false
  | c :: _ => c = '/'

/-- JS `s.slice(1)`: drop the first character. -/
def sliceOne (s : String) : String :=
  String.mk (s.data.drop 1)

/-- JS `String.prototype.split(sep)` on character lists: splits at every
occurrence of `sep`, keeping empty fields; never returns an empty list. -/
def splitChar (sep : Char) : List Char → List (List Char)
  | [] => [[]]
  | c :: cs =>
    match splitChar sep cs with
    | [] => [[]]
    | t :: ts => if c = sep then [] :: t :: ts else (c :: t) :: ts

/-- JS `s.split(' ')[0]`: the first field of a split on the space character. -/
def jsSplitSpaceHead (s : String) : String :=
  String.mk ((splitChar ' ' s.data).headD [])

/-- Predicate of the first `updateTypeMap` entry: `!!update.message?.photo`. -/
def predPhoto (u : TelegramUpdate) : Bool :=
  match u.message with
  | none => false
  | some m => m.photo

/-- Predicate of the second entry: `!!update.message?.document`. -/
def predDocument (u : TelegramUpdate) : Bool :=
  match u.message with
  | none => false
  | some m => m.document

/-- Predicate of the third entry: `!!update.message?.text`. -/
def predMessage (u : TelegramUpdate) : Bool :=
  match u.message with
  | none => false
  | some m => jsTruthyOpt m.text

/-- Predicate of the fourth entry: `!!update.inline_query?.query`. -/
def predInline (u : TelegramUpdate) : Bool :=
  match u.inline_query with
  | none => false
  | some q => q.query ≠ ""

/-- Predicate of the fifth entry: `!!update.callback_query?.id`. -/
def predCallback (u : TelegramUpdate) : Bool :=
  match u.callback_query with
  | none => false
  | some q => q.id ≠ ""

/-- Predicate of the sixth entry: `!!update.business_message`. -/
def predBusinessMessage (u : TelegramUpdate) : Bool :=
  u.business_message.isSome

/-- The ordered classifier list from `updateTypeMap.ts`, in source order. -/
def updateTypeMap : List (UpdateType × (TelegramUpdate → Bool)) :=
  [(UpdateType.Photo, predPhoto),
   (UpdateType.Document, predDocument),
   (UpdateType.Message, predMessage),
   (UpdateType.Inline, predInline),
   (UpdateType.Callback, predCallback),
   (UpdateType.BusinessMessage, predBusinessMessage)]

/-- The classification loop of the `TelegramExecutionContext` constructor:
walk the list, take the first entry whose predicate holds, `break`. -/
def findType : List (UpdateType × (TelegramUpdate → Bool)) → TelegramUpdate → Option UpdateType
  | [], _ => none
  | (t, p) :: rest, u => if p u then some t else findType rest u

/-- `update_type` as computed by the `TelegramExecutionContext` constructor. -/
def classify (u : TelegramUpdate) : Option UpdateType :=
  findType updateTypeMap u

/-- The source text the command extractor reads:
`this.update.message?.text || this.update.business_message?.text || ''`. -/
def commandSourceText (u : TelegramUpdate) : String :=
  jsStrOr (u.message.bind Msg.text) (jsStrOr (u.business_message.bind BusinessMsg.text) "")

/-- `command` as computed by the `TelegramExecutionContext` constructor:
only for Message / BusinessMessage kinds, only when the source text starts
with a slash, then `messageText.slice(1).split(' ')[0]`. -/
def contextCommand (u : TelegramUpdate) : Option String :=
  let ut := classify u
  if ut = some UpdateType.Message ∨ ut = some UpdateType.BusinessMessage then
    let messageText := commandSourceText u
    if startsWithSlash messageText then
      some (jsSplitSpaceHead (sliceOne messageText))
    else
      none
  else
    none

/-- The `TelegramBot` registries that `handle` consults.  `commands` holds
the names registered through `onCommand` (a registered name maps to a
handler function, so membership models a truthy `this.commands[c]`);
`events` holds the kinds registered through `onEvent`. -/
structure TelegramBot where
  token : String
  commands : List String
  events : List UpdateType
deriving DecidableEq, Repr

/-- An inbound request as `handle` reads it: `url.pathname`,
`request.method`, the JSON body (`none` models an unparsable body, whose
`request.json()` throws into the outer catch), and
`url.searchParams.get('command')`. -/
structure Req where
  pathname : String
  method : String
  body : Option TelegramUpdate
  queryCommand : Option String
deriving DecidableEq, Repr

/-- What `handle` does with a request: which handler it invokes (identified
by its registry key), or which canned response it returns. -/
inductive HandleResult where
  | commandHandler (name : String)
  | eventHandler (t : UpdateType)
  | noHandler
  | unhandledKind
  | webhookSet
  | okResponse
  | serverError
deriving DecidableEq, Repr

/-- HTTP status of the canned responses `handle` builds itself
(`none` for results whose status the invoked handler or webhook chooses). -/
def statusOf : HandleResult → Option Nat
  | HandleResult.noHandler => some 400
  | HandleResult.unhandledKind => some 400
  | HandleResult.okResponse => some 200
  | HandleResult.serverError => some 500
  | _ => none

/-- JS truthiness of `ctx.command` in the guard
`if (ctx.command && this.commands[ctx.command])`. -/
def jsTruthyCmd (c : Option String) : Bool :=
  match c with
  | none => false
  | some s => s ≠ ""

/-- `TelegramBot.handle`: check the path against `/<token>`; on POST parse
the body, build the context, dispatch with command precedence; on GET with
`?command=set` delegate to the webhook; otherwise fall through to the
`Response('ok')` at the end.  A thrown body parse is caught by the
surrounding try into the 500 response. -/
def handle (bot : TelegramBot) (req : Req) : HandleResult :=
  if req.pathname = "/" ++ bot.token then
    if req.method = "POST" then
      match req.body with
      | none => HandleResult.serverError
      | some u =>
        match classify u with
        | some t =>
          let cmd := contextCommand u
          if jsTruthyCmd cmd = true ∧ cmd.getD "" ∈ bot.commands then
            HandleResult.commandHandler (cmd.getD "")
          else if t ∈ bot.events then
            HandleResult.eventHandler t
          else
            HandleResult.noHandler
        | none => HandleResult.unhandledKind
    else if req.method = "GET" then
      if req.queryCommand = some "set" then HandleResult.webhookSet
      else HandleResult.okResponse
    else
      HandleResult.okResponse
  else
    HandleResult.okResponse

/-- The static rate-limiter state of `TelegramApi`:
`requestCount` and `resetTime` (milliseconds). -/
structure LimiterState where
  requestCount : Nat
  resetTime : Nat
deriving DecidableEq, Repr

/-- Outcome of one `rateLimit()` call: `suspendedUntil` is the nominal wake
instant of the `setTimeout` (or `none` when the caller proceeds at once),
`state` the static state afterwards. -/
structure RateLimitResult where
  suspendedUntil : Option Nat
  state : LimiterState
deriving DecidableEq, Repr

/-- `TelegramApi.rateLimit`, with `now` the `Date.now()` reading at entry
and `wake` the `Date.now()` reading after the `setTimeout` sleep (used only
on the suspension branch).  Mirrors the source line by line: reset when
`now > resetTime` (strict); suspend when `requestCount >= 30`, then start a
fresh window at the wake time; finally increment. -/
def rateLimit (now wake : Nat) (s : LimiterState) : RateLimitResult :=
  let s1 := if s.resetTime < now then ⟨0, now + 1000⟩ else s
  if 30 ≤ s1.requestCount then
    ⟨some s1.resetTime, ⟨0 + 1, wake + 1000⟩⟩
  else
    ⟨none, ⟨s1.requestCount + 1, s1.resetTime⟩⟩

/-- Modelled from the claim's words, for comparison with `rateLimit`:
identical except that the reset fires when now is at or past the window
end (`resetTime ≤ now`) rather than strictly past it. -/
def rateLimitClaimed (now wake : Nat) (s : LimiterState) : RateLimitResult :=
  let s1 := if s.resetTime ≤ now then ⟨0, now + 1000⟩ else s
  if 30 ≤ s1.requestCount then
    ⟨some s1.resetTime, ⟨0 + 1, wake + 1000⟩⟩
  else
    ⟨none, ⟨s1.requestCount + 1, s1.resetTime⟩⟩

/-- Run `n` consecutive `rateLimit()` calls, all entered at clock reading
`now`; returns the suspension outcome of each call in order and the final
state. -/
def runRateLimit (now wake : Nat) (s : LimiterState) : Nat → List (Option Nat) × LimiterState
  | 0 => ([], s)
  | n + 1 =>
    let r := rateLimit now wake s
    let p := runRateLimit now wake r.state n
    (r.suspendedUntil :: p.1, p.2)

/-- Outcome of the single upstream API call a reply-channel operation makes:
the call succeeds with `ok: true`, returns `ok: false`, or throws at the
transport level. -/
inductive CallOutcome where
  | succeeds
  | failsFlag
  | throws
deriving DecidableEq, Repr

/-- What the caller of a reply-channel operation observes: whether an
exception escaped to it, and whether `handleApiResponse` inspected the
response's `ok` flag. -/
structure OpResult where
  raised : Bool
  flagChecked : Bool
deriving DecidableEq, Repr

/-- Call pattern `try { r := await api.x(...); handleApiResponse(r) }
catch (e) { console.error(e) }` — check the flag, swallow everything. -/
def guardedCall (o : CallOutcome) : OpResult :=
  match o with
  | CallOutcome.throws => ⟨false, false⟩
  | _ => ⟨false, true⟩

/-- Call pattern `await api.x(...).then(r => handleApiResponse(r))` with no
catch (the BusinessMessage branch of `reply`): the flag is checked on a
response, but a thrown transport error escapes. -/
def checkedUncaughtCall (o : CallOutcome) : OpResult :=
  match o with
  | CallOutcome.throws => ⟨true, false⟩
  | _ => ⟨false, true⟩

/-- Call pattern `await api.x(...);` bare: no flag check, no catch. -/
def bareCall (o : CallOutcome) : OpResult :=
  match o with
  | CallOutcome.throws => ⟨true, false⟩
  | _ => ⟨false, false⟩

/-- No upstream call made on this path (early return or warned default). -/
def noCall : OpResult := ⟨false, false⟩

/-- What `reply` sends, abstracted to the shape of the outbound call. -/
inductive ReplyAction where
  | nothing
  | documentAttachment (caption : String)
  | textMessage
  | inlineArticle
  | businessText
deriving DecidableEq, Repr

/-- The fixed caption `reply` attaches to an over-length text document. -/
def overlongCaption : String := "这是一个超长文本文件，无法在消息中显示。"

/-- `TelegramExecutionContext.reply`, as a function of the context kind, the
message, and the outcome of the one upstream call the taken branch makes.
Returns what was sent and what the caller observes.  Over-length text
(`length > 4096`) on any non-Inline kind goes out as a document attachment
through a guarded call; Message/Photo/Document text goes through the
guarded private `sendMessage` wrapper; Inline answers the inline query
guarded; BusinessMessage sends directly with a `.then` flag check but no
catch; Callback falls to the warned default. -/
def reply (k : Option UpdateType) (message : String) (o : CallOutcome) : ReplyAction × OpResult :=
  match k with
  | none => (ReplyAction.nothing, noCall)
  | some k =>
    if 4096 < message.length ∧ k ≠ UpdateType.Inline then
      (ReplyAction.documentAttachment overlongCaption, guardedCall o)
    else
      match k with
      | UpdateType.Message => (ReplyAction.textMessage, guardedCall o)
      | UpdateType.Photo => (ReplyAction.textMessage, guardedCall o)
      | UpdateType.Document => (ReplyAction.textMessage, guardedCall o)
      | UpdateType.Inline => (ReplyAction.inlineArticle, guardedCall o)
      | UpdateType.BusinessMessage => (ReplyAction.businessText, checkedUncaughtCall o)
      | UpdateType.Callback => (ReplyAction.nothing, noCall)

/-- `TelegramExecutionContext.replyPhoto`: Message/Photo send the photo with
a bare `await api.sendPhoto`; Inline answers the query guarded; everything
else (including a null kind) is a warned no-op. -/
def replyPhotoFlow (k : Option UpdateType) (o : CallOutcome) : OpResult :=
  match k with
  | some UpdateType.Message => bareCall o
  | some UpdateType.Photo => bareCall o
  | some UpdateType.Inline => guardedCall o
  | _ => noCall

/-- `TelegramExecutionContext.replyVideo`: Message sends with a bare
`await api.sendVideo`; Inline answers guarded; otherwise a warned no-op. -/
def replyVideoFlow (k : Option UpdateType) (o : CallOutcome) : OpResult :=
  match k with
  | some UpdateType.Message => bareCall o
  | some UpdateType.Inline => guardedCall o
  | _ => noCall

/-- `TelegramExecutionContext.sendTyping`: Message/Photo/Document and
BusinessMessage issue a bare `await api.sendChatAction`; otherwise a warned
no-op. -/
def sendTypingFlow (k : Option UpdateType) (o : CallOutcome) : OpResult :=
  match k with
  | some UpdateType.Message => bareCall o
  | some UpdateType.Photo => bareCall o
  | some UpdateType.Document => bareCall o
  | some UpdateType.BusinessMessage => bareCall o
  | _ => noCall

/-- `TelegramExecutionContext.replyInline`: only for the Inline kind, with a
guarded `answerInline`; otherwise a warned no-op. -/
def replyInlineFlow (k : Option UpdateType) (o : CallOutcome) : OpResult :=
  match k with
  | some UpdateType.Inline => guardedCall o
  | _ => noCall

/-- Observable events of a `TelegramApi` operation, in execution order: an
entry into `rateLimit()`, or an HTTP request leaving the process. -/
inductive ApiEvent where
  | rateLimitEnter
  | httpRequest (endpoint : String)
deriving DecidableEq, Repr

/-- Event trace of the private `post` helper: `rateLimit()` then the
JSON POST `fetch`. -/
def postTrace (endpoint : String) : List ApiEvent :=
  [ApiEvent.rateLimitEnter, ApiEvent.httpRequest endpoint]

/-- Event trace of the private `get` helper: `rateLimit()` then the
GET `fetch`. -/
def getTrace (endpoint : String) : List ApiEvent :=
  [ApiEvent.rateLimitEnter, ApiEvent.httpRequest endpoint]

/-- `TelegramApi.sendMessage` delegates to `post`. -/
def sendMessageTrace : List ApiEvent := postTrace "sendMessage"

/-- `TelegramApi.sendPhoto` delegates to `post`. -/
def sendPhotoTrace : List ApiEvent := postTrace "sendPhoto"

/-- `TelegramApi.sendVideo` delegates to `post`. -/
def sendVideoTrace : List ApiEvent := postTrace "sendVideo"

/-- `TelegramApi.sendDocument`: with a `Blob` document it builds a
`FormData` body and calls `fetch` directly; with a file id or URL it
delegates to `post`. -/
def sendDocumentTrace (documentIsBlob : Bool) : List ApiEvent :=
  if documentIsBlob then [ApiEvent.httpRequest "sendDocument"]
  else postTrace "sendDocument"

/-- `TelegramApi.sendChatAction` delegates to `post`. -/
def sendChatActionTrace : List ApiEvent := postTrace "sendChatAction"

/-- `TelegramApi.answerInline` delegates to `post`. -/
def answerInlineTrace : List ApiEvent := postTrace "answerInlineQuery"

/-- `TelegramApi.answerCallback` delegates to `post`. -/
def answerCallbackTrace : List ApiEvent := postTrace "answerCallbackQuery"

/-- `TelegramApi.setMyCommands`: `await this.rateLimit()` and then `post`
(which enters the limiter again). -/
def setMyCommandsTrace : List ApiEvent :=
  ApiEvent.rateLimitEnter :: postTrace "setMyCommands"

/-- `true` when every `httpRequest` in the trace is preceded (anywhere
earlier) by at least one `rateLimitEnter`. -/
def allHttpGatedFrom : Bool → List ApiEvent → Bool
  | _, [] => true
  | _, ApiEvent.rateLimitEnter :: rest => allHttpGatedFrom true rest
  | seen, ApiEvent.httpRequest _ :: rest => seen && allHttpGatedFrom seen rest

/-- No HTTP request of the trace is issued before a limiter entry. -/
def allHttpGated (tr : List ApiEvent) : Bool :=
  allHttpGatedFrom false tr

/-- Number of rate-limit units the trace consumes. -/
def countRateLimit (tr : List ApiEvent) : Nat :=
  (tr.filter (fun e =>
    match e with
    | ApiEvent.rateLimitEnter => true
    | _ => false)).length

/-- The first argument of `TelegramApi.getFile` as JavaScript receives it:
either a proper `GetFileParams` object (with an optional `file_id` field)
or a plain string passed where the object was expected — property access
`params.file_id` on a string yields `undefined`. -/
inductive JsParams where
  | str (s : String)
  | obj (file_id : Option String)
deriving DecidableEq, Repr

/-- JS `params.file_id`. -/
def fileIdProp : JsParams → Option String
  | JsParams.str _ => none
  | JsParams.obj f => f

/-- The response of the metadata `get('getFile', ...)` call. -/
inductive ApiResp where
  | respOk (file_path : String)
  | respNotOk (description : String)
deriving DecidableEq, Repr

/-- What `TelegramApi.getFile` returns. -/
inductive GetFileResult where
  | badRequestMissingFileId
  | errorResponse (description : String)
  | fileContent (file_path : String)
deriving DecidableEq, Repr

/-- `TelegramApi.getFile`: enter the limiter, bail out with a 400 response
when `params.file_id` is falsy, otherwise `get('getFile', params)` and, on
an `ok` response, fetch the binary from the file-path URL; on a non-`ok`
response return a 400 error response instead of raising. -/
def TelegramApi_getFile (params : JsParams) (meta : ApiResp) : List ApiEvent × GetFileResult :=
  if jsTruthyOpt (fileIdProp params) = false then
    ([ApiEvent.rateLimitEnter], GetFileResult.badRequestMissingFileId)
  else
    match meta with
    | ApiResp.respOk path =>
      (ApiEvent.rateLimitEnter :: getTrace "getFile" ++ [ApiEvent.httpRequest ("file/bot<token>/" ++ path)],
       GetFileResult.fileContent path)
    | ApiResp.respNotOk d =>
      (ApiEvent.rateLimitEnter :: getTrace "getFile", GetFileResult.errorResponse d)

/-- `TelegramExecutionContext.getFile`: the source passes the raw `file_id`
string itself as the first argument of `TelegramApi.getFile`
(`this.api.getFile(file_id, this.bot.token)`), not a `GetFileParams`
object. -/
def TelegramExecutionContext_getFile (file_id : String) (meta : ApiResp) : List ApiEvent × GetFileResult :=
  TelegramApi_getFile (JsParams.str file_id) meta

example : rateLimit 0 0 ⟨0, 1000⟩ = ⟨none, ⟨1, 1000⟩⟩ := by decide
example : rateLimit 2000 0 ⟨17, 1000⟩ = ⟨none, ⟨1, 3000⟩⟩ := by decide
example : rateLimit 500 1000 ⟨30, 1000⟩ = ⟨some 1000, ⟨1, 2000⟩⟩ := by decide
example : (runRateLimit 0 1000 ⟨0, 1000⟩ 31).1 = List.replicate 30 none ++ [some 1000] := by decide

example : classify ⟨some ⟨some "/start", false, false⟩, none, none, none⟩ = some UpdateType.Message := by decide
example : classify ⟨some ⟨some "hi", true, false⟩, none, none, none⟩ = some UpdateType.Photo := by decide
example : classify ⟨none, none, some ⟨"1", "hello"⟩, none⟩ = some UpdateType.Inline := by decide
example : classify ⟨none, none, none, none⟩ = none := by decide
example : contextCommand ⟨some ⟨some "/start extra args", false, false⟩, none, none, none⟩ = some "start" := by decide
example : contextCommand ⟨some ⟨some "hello", false, false⟩, none, none, none⟩ = none := by decide
example : contextCommand ⟨some ⟨some "/", false, false⟩, none, none, none⟩ = some "" := by decide

/-- The constructor's for-loop-with-break is exactly `List.find?` on the
predicate list, projected to the kind. -/
theorem findType_eq_find (l : List (UpdateType × (TelegramUpdate → Bool))) (u : TelegramUpdate) :
    findType l u = (l.find? (fun e => e.2 u)).map Prod.fst := by
  induction l with
  | nil => rfl
  | cons hd tl ih =>
    obtain ⟨t, p⟩ := hd
    by_cases h : p u
    · simp [findType, List.find?_cons, h]
    · simp [findType, List.find?_cons, h, ih]

/-- `splitChar` never produces the empty list of fields. -/
theorem splitChar_ne_nil (sep : Char) (l : List Char) : splitChar sep l ≠ [] := by
  induction l with
  | nil => simp [splitChar]
  | cons c cs ih =>
    simp only [splitChar]
    cases h : splitChar sep cs with
    | nil => exact absurd h ih
    | cons t ts => by_cases hc : c = sep <;> simp [hc]

/-- The first field of a split is the prefix up to the first separator. -/
theorem headD_splitChar (sep : Char) (l : List Char) :
    (splitChar sep l).headD [] = l.takeWhile (fun c => c != sep) := by
  induction l with
  | nil => rfl
  | cons c cs ih =>
    simp only [splitChar, List.takeWhile]
    cases h : splitChar sep cs with
    | nil => exact absurd h (splitChar_ne_nil sep cs)
    | cons t ts =>
      rw [h] at ih
      simp only [List.headD] at ih
      by_cases hc : c = sep
      · simp [hc]
      · have hb : (c != sep) = true := by simp [hc]
        simp [hc, hb, ih]

/-- Concatenation law for repeated limiter calls at one clock reading. -/
theorem runRateLimit_add (now wake : Nat) (s : LimiterState) (a b : Nat) :
    runRateLimit now wake s (a + b)
      = ((runRateLimit now wake s a).1 ++ (runRateLimit now wake (runRateLimit now wake s a).2 b).1,
         (runRateLimit now wake (runRateLimit now wake s a).2 b).2) := by
  induction a generalizing s with
  | zero => simp [runRateLimit]
  | succ n ih =>
    rw [Nat.succ_add]
    simp only [runRateLimit]
    rw [ih]
    simp

/-- Inside an open window (`now` before the window end) with room left under
the cap, `k` further calls all proceed immediately and just count up. -/
theorem runRateLimit_fill (t0 wake : Nat) :
    ∀ k c : Nat, c + k ≤ 30 →
      runRateLimit t0 wake ⟨c, t0 + 1000⟩ k = (List.replicate k none, ⟨c + k, t0 + 1000⟩) := by
  intro k
  induction k with
  | zero => intro c h; simp [runRateLimit]
  | succ n ih =>
    intro c h
    have hreset : ¬ (t0 + 1000 < t0) := by omega
    have hcap : ¬ (30 ≤ c) := by omega
    have hstep : rateLimit t0 wake ⟨c, t0 + 1000⟩ = ⟨none, ⟨c + 1, t0 + 1000⟩⟩ := by
      simp [rateLimit, hreset, hcap]
    have hrest := ih (c + 1) (by omega)
    simp only [runRateLimit, hstep, hrest]
    have hc : c + 1 + n = c + (n + 1) := by omega
    rw [hc]
    simp [List.replicate]

/-- C2 (confirmed): classification evaluates the fixed ordered predicate
list top-to-bottom and assigns the first matching kind or none; an update
whose message carries both a photo and text classifies as Photo; at most
one kind is ever assigned. -/
theorem classify_first_match :
    (∀ u : TelegramUpdate, classify u = (updateTypeMap.find? (fun e => e.2 u)).map Prod.fst)
    ∧ (∀ (u : TelegramUpdate) (m : Msg), u.message = some m → m.photo = true →
        jsTruthyOpt m.text = true → classify u = some UpdateType.Photo)
    ∧ (∀ (u : TelegramUpdate) (t₁ t₂ : UpdateType),
        classify u = some t₁ → classify u = some t₂ → t₁ = t₂) := by
  refine ⟨fun u => findType_eq_find updateTypeMap u, ?_, ?_⟩
  · intro u m hm hp _
    simp [classify, updateTypeMap, findType, predPhoto, hm, hp]
  · intro u t₁ t₂ h₁ h₂
    rw [h₁] at h₂
    exact Option.some.inj h₂

/-- Witness for C2 at a concrete update carrying both a photo and text. -/
theorem classify_first_match_witness :
    classify ⟨some ⟨some "caption text", true, false⟩, none, none, none⟩ = some UpdateType.Photo :=
  classify_first_match.2.1 ⟨some ⟨some "caption text", true, false⟩, none, none, none⟩
    ⟨some "caption text", true, false⟩ rfl rfl (by decide)

/-- C9 (confirmed): a request whose path is not `/<token>` gets the plain
success response, with no body parsing and no handler invocation,
whatever the method and body. -/
theorem handle_wrong_path (bot : TelegramBot) (req : Req)
    (h : ¬ req.pathname = "/" ++ bot.token) :
    handle bot req = HandleResult.okResponse
    ∧ statusOf (handle bot req) = some 200 := by
  unfold handle
  rw [if_neg h]
  exact ⟨rfl, rfl⟩

/-- Witness for C9: wrong path, unparsable body, still the 200 response. -/
theorem handle_wrong_path_witness :
    handle ⟨"123456789", ["start"], [UpdateType.Message]⟩ ⟨"/wrong", "POST", none, none⟩
      = HandleResult.okResponse
    ∧ statusOf (handle ⟨"123456789", ["start"], [UpdateType.Message]⟩ ⟨"/wrong", "POST", none, none⟩)
      = some 200 :=
  handle_wrong_path ⟨"123456789", ["start"], [UpdateType.Message]⟩ ⟨"/wrong", "POST", none, none⟩
    (by decide)

/-- C7 (amended theorem): every typed operation except the multipart
(`Blob`) mode of `sendDocument` enters the rate limiter before its HTTP
request; the multipart mode issues its request ungated. -/
theorem api_calls_gated :
    allHttpGated sendMessageTrace = true
    ∧ allHttpGated sendPhotoTrace = true
    ∧ allHttpGated sendVideoTrace = true
    ∧ allHttpGated (sendDocumentTrace false) = true
    ∧ allHttpGated sendChatActionTrace = true
    ∧ allHttpGated answerInlineTrace = true
    ∧ allHttpGated answerCallbackTrace = true
    ∧ allHttpGated setMyCommandsTrace = true
    ∧ allHttpGated (sendDocumentTrace true) = false := by decide

/-- C7 (counterexample): `sendDocument` in multipart mode consists of one
bare HTTP request, with no rate-limiter entry at all — refuting the claim
that every operation, `sendDocument` in both encoding modes included,
passes through the limiter first. -/
theorem api_gating_counterexample :
    sendDocumentTrace true = [ApiEvent.httpRequest "sendDocument"]
    ∧ allHttpGated (sendDocumentTrace true) = false
    ∧ countRateLimit (sendDocumentTrace true) = 0 := by decide

/-- C3 (counterexample): at a clock reading exactly equal to the window
end (`now = resetTime = 1000`) with a mid-window count, the code does not
reset (its guard is the strict `now > resetTime`): the count keeps
climbing in the old window, where the claim's at-or-past reset demands a
fresh window with count 1 and window end `now + 1000`. -/
theorem rateLimit_boundary_counterexample :
    rateLimit 1000 2000 ⟨5, 1000⟩ = ⟨none, ⟨6, 1000⟩⟩
    ∧ rateLimitClaimed 1000 2000 ⟨5, 1000⟩ = ⟨none, ⟨1, 2000⟩⟩
    ∧ rateLimit 1000 2000 ⟨5, 1000⟩ ≠ rateLimitClaimed 1000 2000 ⟨5, 1000⟩ := by decide

/-- C3 (amended theorem): the limiter resets only when the clock is
strictly past the window end; at or under the window end, a call at the
cap of 30 suspends until the window end and a fresh window starts at the
wake time, and a call under the cap increments and proceeds; the stored
count never exceeds 30; and of 31 calls entered in one nominal second the
first 30 proceed immediately while the 31st is suspended into the next
window. -/
theorem rateLimit_characterization :
    (∀ (now wake : Nat) (s : LimiterState), s.resetTime < now →
       rateLimit now wake s = ⟨none, ⟨1, now + 1000⟩⟩)
    ∧ (∀ (now wake : Nat) (s : LimiterState), ¬ s.resetTime < now → 30 ≤ s.requestCount →
       rateLimit now wake s = ⟨some s.resetTime, ⟨1, wake + 1000⟩⟩)
    ∧ (∀ (now wake : Nat) (s : LimiterState), ¬ s.resetTime < now → s.requestCount < 30 →
       rateLimit now wake s = ⟨none, ⟨s.requestCount + 1, s.resetTime⟩⟩)
    ∧ (∀ (now wake : Nat) (s : LimiterState), (rateLimit now wake s).state.requestCount ≤ 30)
    ∧ (∀ t0 wake : Nat,
        runRateLimit t0 wake ⟨0, t0 + 1000⟩ 31
          = (List.replicate 30 none ++ [some (t0 + 1000)], ⟨1, wake + 1000⟩)) := by
  refine ⟨?_, ?_, ?_, ?_, ?_⟩
  · intro now wake s h
    simp [rateLimit, h]
  · intro now wake s h hcap
    simp [rateLimit, h, hcap]
  · intro now wake s h hcap
    have hcap2 : ¬ (30 ≤ s.requestCount) := by omega
    simp [rateLimit, h, hcap2]
  · intro now wake s
    by_cases h1 : s.resetTime < now
    · simp [rateLimit, h1]
    · by_cases h2 : 30 ≤ s.requestCount
      · simp [rateLimit, h1, h2]
      · simp [rateLimit, h1, h2]
        omega
  · intro t0 wake
    have h30 := runRateLimit_fill t0 wake 30 0 (by omega)
    have hreset : ¬ (t0 + 1000 < t0) := by omega
    have hsusp : rateLimit t0 wake ⟨30, t0 + 1000⟩ = ⟨some (t0 + 1000), ⟨1, wake + 1000⟩⟩ := by
      simp [rateLimit, hreset]
    have h31 : (31 : Nat) = 30 + 1 := rfl
    rw [h31, runRateLimit_add t0 wake ⟨0, t0 + 1000⟩ 30 1, h30]
    simp [runRateLimit, hsusp]

/-- Witness for C3: the three functional branches and the 31-call scenario
at concrete clock values. -/
theorem rateLimit_characterization_witness :
    rateLimit 2000 0 ⟨17, 1000⟩ = ⟨none, ⟨1, 3000⟩⟩
    ∧ rateLimit 500 1500 ⟨30, 1000⟩ = ⟨some 1000, ⟨1, 2500⟩⟩
    ∧ rateLimit 500 0 ⟨4, 1000⟩ = ⟨none, ⟨5, 1000⟩⟩
    ∧ runRateLimit 0 1000 ⟨0, 1000⟩ 31 = (List.replicate 30 none ++ [some 1000], ⟨1, 2000⟩) :=
  ⟨rateLimit_characterization.1 2000 0 ⟨17, 1000⟩ (by decide),
   rateLimit_characterization.2.1 500 1500 ⟨30, 1000⟩ (by decide) (by decide),
   rateLimit_characterization.2.2.1 500 0 ⟨4, 1000⟩ (by decide) (by decide),
   rateLimit_characterization.2.2.2.2 0 1000⟩

/-- C4 (confirmed): a text longer than 4096 characters is sent as a
document attachment with the fixed caption for every kind other than
Inline, while the Inline kind still answers with a single article inline
result. -/
theorem reply_overlong (msg : String) (o : CallOutcome) (h : 4096 < msg.length) :
    (∀ k : UpdateType, k ≠ UpdateType.Inline →
       (reply (some k) msg o).1 = ReplyAction.documentAttachment overlongCaption)
    ∧ (reply (some UpdateType.Inline) msg o).1 = ReplyAction.inlineArticle := by
  constructor
  · intro k hk
    simp [reply, h, hk]
  · simp [reply]

/-- Witness for C4 at a 4097-character message: Message kind sends the
document attachment, Inline still answers inline. -/
theorem reply_overlong_witness :
    (reply (some UpdateType.Message) (String.mk (List.replicate 4097 'a')) CallOutcome.succeeds).1
      = ReplyAction.documentAttachment overlongCaption
    ∧ (reply (some UpdateType.Inline) (String.mk (List.replicate 4097 'a')) CallOutcome.succeeds).1
      = ReplyAction.inlineArticle :=
  ⟨(reply_overlong (String.mk (List.replicate 4097 'a')) CallOutcome.succeeds
      (by rw [show (String.mk (List.replicate 4097 'a')).length = 4097 from List.length_replicate 4097 'a']; omega)).1
     UpdateType.Message (by decide),
   (reply_overlong (String.mk (List.replicate 4097 'a')) CallOutcome.succeeds
      (by rw [show (String.mk (List.replicate 4097 'a')).length = 4097 from List.length_replicate 4097 'a']; omega)).2⟩

/-- Modelled from the claim's words: the first whitespace-delimited token
of a string — skip leading whitespace, then the maximal run of
non-whitespace characters. -/
def firstWhitespaceTokenSpec (s : String) : String :=
  String.mk ((s.data.dropWhile Char.isWhitespace).takeWhile (fun c => !(Char.isWhitespace c)))

/-- C5 (counterexample): a Message with text containing a tab, `"/a\tb"`.
The code splits on the space character only, so the extracted command is
`"a\tb"`, not the first whitespace-delimited token `"a"` the claim
specifies. -/
theorem contextCommand_whitespace_counterexample :
    contextCommand ⟨some ⟨some "/a\tb", false, false⟩, none, none, none⟩ = some "a\tb"
    ∧ firstWhitespaceTokenSpec "a\tb" = "a"
    ∧ ("a\tb" : String) ≠ "a" := by decide

/-- C5 (amended theorem): the command is defined only for the Message and
BusinessMessage kinds; there it is defined exactly when the source text
starts with `/`, and it equals the prefix of the text after the slash up
to the first space character (U+0020) — split on the space character
only, case-sensitive, no suffix stripped. -/
theorem contextCommand_characterization (u : TelegramUpdate) :
    ((¬ classify u = some UpdateType.Message ∧ ¬ classify u = some UpdateType.BusinessMessage) →
       contextCommand u = none)
    ∧ ((classify u = some UpdateType.Message ∨ classify u = some UpdateType.BusinessMessage) →
        ((contextCommand u).isSome = startsWithSlash (commandSourceText u)
         ∧ ∀ c, contextCommand u = some c →
             c = String.mk (((commandSourceText u).data.drop 1).takeWhile (fun ch => ch != ' ')))) := by
  constructor
  · intro h
    have hcond : ¬ (classify u = some UpdateType.Message ∨ classify u = some UpdateType.BusinessMessage) := by
      intro hor
      cases hor with
      | inl h1 => exact h.1 h1
      | inr h2 => exact h.2 h2
    simp only [contextCommand]
    rw [if_neg hcond]
  · intro hor
    simp only [contextCommand]
    rw [if_pos hor]
    by_cases hs : startsWithSlash (commandSourceText u)
    · rw [if_pos hs]
      refine ⟨by simp [hs], ?_⟩
      intro c hc
      have hc2 : c = jsSplitSpaceHead (sliceOne (commandSourceText u)) := (Option.some.inj hc).symm
      rw [hc2]
      simp only [jsSplitSpaceHead, sliceOne]
      rw [headD_splitChar]
    · rw [if_neg hs]
      refine ⟨by simp [hs], ?_⟩
      intro c hc
      exact absurd hc (by simp)

/-- Witness for C5: `"/start extra args"` yields command `"start"`, equal
to the prefix up to the first space. -/
theorem contextCommand_characterization_witness :
    contextCommand ⟨some ⟨some "/start extra args", false, false⟩, none, none, none⟩ = some "start"
    ∧ "start" = String.mk ((("/start extra args" : String).data.drop 1).takeWhile (fun ch => ch != ' ')) :=
  ⟨by decide,
   (contextCommand_characterization ⟨some ⟨some "/start extra args", false, false⟩, none, none, none⟩).2
     (Or.inl (by decide)) |>.2 "start" (by decide)⟩

/-- C6 (counterexample): in `replyPhoto` on a Message context the photo is
sent by a bare `await this.api.sendPhoto(...)` — a transport exception
escapes to the caller, and an `ok: false` response is never checked;
`sendTyping` behaves the same way.  This refutes the claim that every
reply-channel operation checks the success flag and swallows every
failure. -/
theorem replyOps_swallow_counterexample :
    (replyPhotoFlow (some UpdateType.Message) CallOutcome.throws).raised = true
    ∧ (replyPhotoFlow (some UpdateType.Message) CallOutcome.failsFlag).flagChecked = false
    ∧ (sendTypingFlow (some UpdateType.Message) CallOutcome.throws).raised = true := by decide

/-- C6 (amended theorem): the guarded paths — every branch of `reply`
except transport exceptions in its BusinessMessage branch, `replyInline`,
and the Inline branches of `replyPhoto` and `replyVideo` — check the
success flag, log, and swallow; in particular `reply` checks the flag of
every response it obtains: on each kind (the no-call branches — a null
kind, or a short text on the Callback kind — apart) the flag is checked
exactly when the call returned rather than threw.  But the direct-send
branches of `replyPhoto` (Message/Photo) and `replyVideo` (Message),
every sending branch of `sendTyping`, and a transport exception in
`reply`'s BusinessMessage branch neither check the flag nor catch, and
the exception reaches the operation's caller. -/
theorem replyOps_error_policy (k : Option UpdateType) (o : CallOutcome) (msg : String) :
    ((reply k msg o).2.raised = true ↔
       (k = some UpdateType.BusinessMessage ∧ msg.length ≤ 4096 ∧ o = CallOutcome.throws))
    ∧ ((reply k msg o).2.flagChecked = true ↔
       (¬ k = none ∧ ¬ o = CallOutcome.throws
        ∧ (¬ k = some UpdateType.Callback ∨ 4096 < msg.length)))
    ∧ ((replyPhotoFlow k o).raised = true ↔
       ((k = some UpdateType.Message ∨ k = some UpdateType.Photo) ∧ o = CallOutcome.throws))
    ∧ ((replyPhotoFlow k o).flagChecked = true ↔
       (k = some UpdateType.Inline ∧ ¬ o = CallOutcome.throws))
    ∧ ((replyVideoFlow k o).raised = true ↔
       (k = some UpdateType.Message ∧ o = CallOutcome.throws))
    ∧ ((replyVideoFlow k o).flagChecked = true ↔
       (k = some UpdateType.Inline ∧ ¬ o = CallOutcome.throws))
    ∧ ((sendTypingFlow k o).raised = true ↔
       ((k = some UpdateType.Message ∨ k = some UpdateType.Photo ∨ k = some UpdateType.Document
          ∨ k = some UpdateType.BusinessMessage) ∧ o = CallOutcome.throws))
    ∧ ((sendTypingFlow k o).flagChecked = false)
    ∧ ((replyInlineFlow k o).raised = false)
    ∧ ((replyInlineFlow k o).flagChecked = true ↔
       (k = some UpdateType.Inline ∧ ¬ o = CallOutcome.throws)) := by
  rcases k with _ | k
  · cases o <;>
      simp [reply, replyPhotoFlow, replyVideoFlow, sendTypingFlow, replyInlineFlow, noCall]
  · by_cases h : 4096 < msg.length
    · have h2 : ¬ (msg.length ≤ 4096) := by omega
      cases k <;> cases o <;>
        simp [reply, replyPhotoFlow, replyVideoFlow, sendTypingFlow, replyInlineFlow,
          guardedCall, checkedUncaughtCall, bareCall, noCall, h, h2]
    · have h2 : msg.length ≤ 4096 := by omega
      cases k <;> cases o <;>
        simp [reply, replyPhotoFlow, replyVideoFlow, sendTypingFlow, replyInlineFlow,
          guardedCall, checkedUncaughtCall, bareCall, noCall, h, h2]

/-- C8 (code bug): `TelegramExecutionContext.getFile` passes the raw
`file_id` string itself where `TelegramApi.getFile` expects a
`GetFileParams` object, so `params.file_id` is `undefined` and the client
answers the 400 `file_id is required` response for every file id, making
no metadata call and no download.  Called with a proper params object and
a nonempty file id, the client does perform the two-step resolution and
short-circuits a failed metadata call into an error response. -/
theorem ctx_getFile_bug (file_id : String) (meta : ApiResp) :
    TelegramExecutionContext_getFile file_id meta
      = ([ApiEvent.rateLimitEnter], GetFileResult.badRequestMissingFileId)
    ∧ (∀ fid path : String, ¬ fid = "" →
        TelegramApi_getFile (JsParams.obj (some fid)) (ApiResp.respOk path)
          = ([ApiEvent.rateLimitEnter, ApiEvent.rateLimitEnter, ApiEvent.httpRequest "getFile",
              ApiEvent.httpRequest ("file/bot<token>/" ++ path)], GetFileResult.fileContent path))
    ∧ (∀ fid d : String, ¬ fid = "" →
        TelegramApi_getFile (JsParams.obj (some fid)) (ApiResp.respNotOk d)
          = ([ApiEvent.rateLimitEnter, ApiEvent.rateLimitEnter, ApiEvent.httpRequest "getFile"],
             GetFileResult.errorResponse d)) := by
  refine ⟨?_, ?_, ?_⟩
  · simp [TelegramExecutionContext_getFile, TelegramApi_getFile, fileIdProp, jsTruthyOpt]
  · intro fid path hf
    simp [TelegramApi_getFile, fileIdProp, jsTruthyOpt, hf, getTrace]
  · intro fid d hf
    simp [TelegramApi_getFile, fileIdProp, jsTruthyOpt, hf, getTrace]

/-- Witness for C8: the context-level call with file id `"abc"` returns
the 400 response without touching the network, while the client called
with a proper params object resolves and downloads. -/
theorem ctx_getFile_bug_witness :
    TelegramExecutionContext_getFile "abc" (ApiResp.respOk "photos/file_1.jpg")
      = ([ApiEvent.rateLimitEnter], GetFileResult.badRequestMissingFileId)
    ∧ TelegramApi_getFile (JsParams.obj (some "abc")) (ApiResp.respOk "photos/file_1.jpg")
      = ([ApiEvent.rateLimitEnter, ApiEvent.rateLimitEnter, ApiEvent.httpRequest "getFile",
          ApiEvent.httpRequest "file/bot<token>/photos/file_1.jpg"], GetFileResult.fileContent "photos/file_1.jpg") :=
  ⟨(ctx_getFile_bug "abc" (ApiResp.respOk "photos/file_1.jpg")).1,
   by
    have := (ctx_getFile_bug "abc" (ApiResp.respOk "photos/file_1.jpg")).2.1 "abc" "photos/file_1.jpg" (by decide)
    simpa using this⟩

/-- C10 (counterexample): a `getFile` call whose `file_id` is the empty
string enters the limiter once and returns before reaching the `get`
helper — it consumes one unit, not two. -/
theorem doubled_rate_limit_counterexample :
    countRateLimit (TelegramApi_getFile (JsParams.obj (some "")) (ApiResp.respOk "p")).1 = 1
    ∧ ¬ countRateLimit (TelegramApi_getFile (JsParams.obj (some "")) (ApiResp.respOk "p")).1 = 2 := by
  decide

/-- C10 (amended theorem): `setMyCommands` always consumes two limiter
units; `getFile` consumes two when its `file_id` is present and nonempty
(one limiter entry in the operation, one in the `get` helper) and one
otherwise; and from a fresh window, 30 limiter entries — fifteen such
double-gated calls — all proceed immediately while the next entry (the
first unit of a sixteenth call) suspends until the window end. -/
theorem doubled_rate_limit :
    countRateLimit setMyCommandsTrace = 2
    ∧ (∀ (fid : Option String) (meta : ApiResp), jsTruthyOpt fid = true →
        countRateLimit (TelegramApi_getFile (JsParams.obj fid) meta).1 = 2)
    ∧ (∀ (fid : Option String) (meta : ApiResp), jsTruthyOpt fid = false →
        countRateLimit (TelegramApi_getFile (JsParams.obj fid) meta).1 = 1)
    ∧ (∀ t0 wake : Nat,
        (runRateLimit t0 wake ⟨0, t0 + 1000⟩ 30).1 = List.replicate 30 none
        ∧ (rateLimit t0 wake (runRateLimit t0 wake ⟨0, t0 + 1000⟩ 30).2).suspendedUntil
            = some (t0 + 1000)) := by
  refine ⟨by decide, ?_, ?_, ?_⟩
  · intro fid meta h
    cases meta <;>
      simp [TelegramApi_getFile, fileIdProp, h, countRateLimit, getTrace]
  · intro fid meta h
    cases meta <;>
      simp [TelegramApi_getFile, fileIdProp, h, countRateLimit, getTrace]
  · intro t0 wake
    have h30 := runRateLimit_fill t0 wake 30 0 (by omega)
    have hreset : ¬ (t0 + 1000 < t0) := by omega
    rw [h30]
    exact ⟨rfl, by simp [rateLimit, hreset]⟩

/-- Witness for C10: a valid `getFile` call consumes two units; with the
window full after 30 entries, the next limiter entry suspends. -/
theorem doubled_rate_limit_witness :
    countRateLimit (TelegramApi_getFile (JsParams.obj (some "abc")) (ApiResp.respOk "p")).1 = 2
    ∧ (rateLimit 0 1000 (runRateLimit 0 1000 ⟨0, 1000⟩ 30).2).suspendedUntil = some 1000 :=
  ⟨doubled_rate_limit.2.1 (some "abc") (ApiResp.respOk "p") (by decide),
   (doubled_rate_limit.2.2.2 0 1000).2⟩

/-- C1 (counterexample): text `"/"` extracts the empty command; with a
command handler registered under the empty name and a Message kind
handler also registered, `handle` invokes the kind handler, not the
command handler — the JS truthiness guard `ctx.command && ...` skips an
extracted-but-empty command, contrary to the claim's precedence rule. -/
theorem handle_empty_command_counterexample :
    contextCommand ⟨some ⟨some "/", false, false⟩, none, none, none⟩ = some ""
    ∧ "" ∈ (⟨"tok", [""], [UpdateType.Message]⟩ : TelegramBot).commands
    ∧ handle ⟨"tok", [""], [UpdateType.Message]⟩
        ⟨"/tok", "POST", some ⟨some ⟨some "/", false, false⟩, none, none, none⟩, none⟩
      = HandleResult.eventHandler UpdateType.Message := by decide

/-- C1 (amended theorem): for a POST to the token path whose body
classifies to some kind, exactly one outcome occurs, chosen by precedence:
a nonempty extracted command with a handler registered under it runs the
command handler; otherwise a registered kind handler runs; otherwise the
400 no-handler response is returned; and with no classified kind the 400
unhandled-kind response is returned without invoking any handler. -/
theorem handle_dispatch_precedence (bot : TelegramBot) (req : Req) (u : TelegramUpdate)
    (hpath : req.pathname = "/" ++ bot.token) (hmethod : req.method = "POST")
    (hbody : req.body = some u) :
    (∀ t : UpdateType, classify u = some t →
      (∀ c : String, contextCommand u = some c → ¬ c = "" → c ∈ bot.commands →
        handle bot req = HandleResult.commandHandler c)
      ∧ (¬ (jsTruthyCmd (contextCommand u) = true ∧ (contextCommand u).getD "" ∈ bot.commands) →
          t ∈ bot.events → handle bot req = HandleResult.eventHandler t)
      ∧ (¬ (jsTruthyCmd (contextCommand u) = true ∧ (contextCommand u).getD "" ∈ bot.commands) →
          ¬ t ∈ bot.events →
          handle bot req = HandleResult.noHandler ∧ statusOf (handle bot req) = some 400))
    ∧ (classify u = none →
        handle bot req = HandleResult.unhandledKind ∧ statusOf (handle bot req) = some 400) := by
  have hpost : handle bot req
      = (match classify u with
         | some t =>
           if jsTruthyCmd (contextCommand u) = true ∧ (contextCommand u).getD "" ∈ bot.commands
           then HandleResult.commandHandler ((contextCommand u).getD "")
           else if t ∈ bot.events then HandleResult.eventHandler t
           else HandleResult.noHandler
         | none => HandleResult.unhandledKind) := by
    unfold handle
    rw [hpath, if_pos rfl, hmethod, if_pos rfl, hbody]
  constructor
  · intro t ht
    rw [ht] at hpost
    have hpost2 : handle bot req
        = (if jsTruthyCmd (contextCommand u) = true ∧ (contextCommand u).getD "" ∈ bot.commands
           then HandleResult.commandHandler ((contextCommand u).getD "")
           else if t ∈ bot.events then HandleResult.eventHandler t
           else HandleResult.noHandler) := by
      rw [hpost]
    refine ⟨?_, ?_, ?_⟩
    · intro c hc hcne hcmem
      have hcond : jsTruthyCmd (contextCommand u) = true ∧ (contextCommand u).getD "" ∈ bot.commands := by
        rw [hc]
        exact ⟨by simp [jsTruthyCmd, hcne], by simpa using hcmem⟩
      rw [hpost2, if_pos hcond, hc]
      rfl
    · intro hguard hev
      rw [hpost2, if_neg hguard, if_pos hev]
    · intro hguard hev
      have hno : handle bot req = HandleResult.noHandler := by
        rw [hpost2, if_neg hguard, if_neg hev]
      exact ⟨hno, by rw [hno]; rfl⟩
  · intro hnone
    rw [hnone] at hpost
    have hun : handle bot req = HandleResult.unhandledKind := by
      rw [hpost]
    exact ⟨hun, by rw [hun]; rfl⟩

/-- Witness for C1: a `"/start"` message with a `start` command handler
and a Message kind handler both registered invokes the command handler
only. -/
theorem handle_dispatch_precedence_witness :
    handle ⟨"tok", ["start"], [UpdateType.Message]⟩
        ⟨"/tok", "POST", some ⟨some ⟨some "/start", false, false⟩, none, none, none⟩, none⟩
      = HandleResult.commandHandler "start" :=
  ((handle_dispatch_precedence ⟨"tok", ["start"], [UpdateType.Message]⟩
      ⟨"/tok", "POST", some ⟨some ⟨some "/start", false, false⟩, none, none, none⟩, none⟩
      ⟨some ⟨some "/start", false, false⟩, none, none, none⟩
      (by decide) rfl rfl).1 UpdateType.Message (by decide)).1 "start" (by decide) (by decide)
    (by decide)
